import Mathlib

/-!
Shallow embedding of the recipe-search backend (src/main.py) and proofs about
its specification claims.

The SQLite database is modelled as an explicit state `DB`: the three tables
created by `init_db` (users, favourites, shared_recipes) plus the pre-existing
`recepti` table, each a list of rows in insertion order, together with the
AUTOINCREMENT sequence counter of each writable table.  The external argon2
hash/verify functions are abstract parameters of the operations that use them.
-/

/-- Row of the `users` table: id INTEGER PRIMARY KEY AUTOINCREMENT,
username TEXT UNIQUE NOT NULL, password_hash TEXT NOT NULL. -/
structure User where
  id : Nat
  username : String
  password_hash : String
deriving DecidableEq, Repr

/-- Row of the `favourites` table: id, user_id, recipe_id (all NOT NULL). -/
structure Fav where
  id : Nat
  user_id : Nat
  recipe_id : Nat
deriving DecidableEq, Repr

/-- Row of the `shared_recipes` table: id, sender_id, receiver_id, recipe_id. -/
structure Share where
  id : Nat
  sender_id : Nat
  receiver_id : Nat
  recipe_id : Nat
deriving DecidableEq, Repr

/-- Row of the pre-existing `recepti` table, with the columns the code reads:
id, naziv_dat (display name), slika (image blob, possibly NULL), and the two
text columns besede (raw words) and leme (lemmatized words) used by search. -/
structure Recipe where
  id : Nat
  naziv_dat : String
  slika : Option String
  besede : String
  leme : String
deriving DecidableEq, Repr

/-- The database state: the four tables in row order, plus the AUTOINCREMENT
counter of each table this code writes to (next assigned id is counter + 1). -/
structure DB where
  users : List User
  favourites : List Fav
  shared : List Share
  recepti : List Recipe
  userSeq : Nat
  favSeq : Nat
  shareSeq : Nat
deriving DecidableEq, Repr

/-- Embeds `get_user_id` (src/main.py:67-73): `SELECT id FROM users WHERE
username=?` followed by `fetchone`, i.e. the id of the first user row with
that username, or `None`. -/
def get_user_id (db : DB) (username : String) : Option Nat :=
  (db.users.find? fun u => u.username == username).map fun u => u.id

/-- ASCII lower-casing of a single character, as applied by SQLite's default
case-insensitive LIKE to the letters A-Z. -/
def charLower (c : Char) : Char :=
  if 65 ≤ c.toNat ∧ c.toNat ≤ 90 then Char.ofNat (c.toNat + 32) else c

/-- SQLite LIKE matching on character lists: `%` matches any run of
characters, `_` matches exactly one, any other character matches itself up to
ASCII case.  The pattern must match the whole text. -/
def likeAux : List Char → List Char → Bool
  | [], ts => ts.isEmpty
  | p :: ps, ts =>
    if p = '%' then ts.tails.any fun ts' => likeAux ps ts'
    else
      match ts with
      | [] => false
      | t :: ts' => (p == '_' || charLower p == charLower t) && likeAux ps ts'

/-- SQLite `text LIKE pattern` (default, no ESCAPE clause). -/
def likeMatch (pattern text : String) : Bool :=
  likeAux pattern.data text.data

/-- The per-keyword condition the generated SQL of `search_recipes`
(src/main.py:81) checks for one recipe row: `besede LIKE '%kw%' OR leme LIKE
'%kw%'`, where the keyword has been string-interpolated into the LIKE
pattern, so `%` and `_` inside the keyword act as wildcards. -/
def kwCond (kw : String) (r : Recipe) : Bool :=
  likeMatch ("%" ++ kw ++ "%") r.besede || likeMatch ("%" ++ kw ++ "%") r.leme

/-- Embeds `search_recipes` (src/main.py:75-101).  An empty keyword list
returns `[]` before any query runs.  Otherwise the interpolated SQL
`SELECT DISTINCT id, naziv_dat, slika FROM recepti WHERE <AND of kwCond>` is
executed inside try/except: `fault = true` models a store-level failure of
`cursor.execute` (connectivity, malformed query), which the except branch
turns into `results = []`.  The embedding covers keyword lists in which no
keyword contains a single quote: a quote would change the SQL text itself
rather than the LIKE pattern.  The endpoint then base64-encodes `slika` into
a data URI; the returned rows here are the DISTINCT (id, naziv_dat, slika)
triples in table order, in bijection with the dicts the code builds. -/
def search_recipes (fault : Bool) (db : DB) (keywords : List String) :
    List (Nat × String × Option String) :=
  if keywords.isEmpty then []
  else if fault then []
  else
    ((db.recepti.filter fun r => keywords.all fun kw => kwCond kw r).map
      fun r => (r.id, r.naziv_dat, r.slika)).dedup

/-- Literal (case-sensitive) substring containment, the relation the spec's
words "contains the keyword as a substring" denote. -/
def isSubstr (needle hay : String) : Bool :=
  hay.data.tails.any fun t => needle.data.isPrefixOf t

/-- The WHERE clause `user_id=? AND recipe_id=?` shared by the favourites
queries. -/
def favMatches (uid recipe_id : Nat) (f : Fav) : Bool :=
  f.user_id == uid && f.recipe_id == recipe_id

/-- Embeds `add_to_favourites` (src/main.py:114-127).  Python's
`if not user_id` is falsy both for `None` and for id 0, hence the extra
`uid = 0` branch; the existence check `SELECT id FROM favourites WHERE
user_id=? AND recipe_id=?` guards the insert.  Returns the bool result and
the new state. -/
def add_to_favourites (db : DB) (username : String) (recipe_id : Nat) :
    Bool × DB :=
  match get_user_id db username with
  | none => (false, db)
  | some uid =>
    if uid = 0 then (false, db)
    else if db.favourites.any (favMatches uid recipe_id) then
      (false, db)
    else
      (true,
       { db with
         favourites := db.favourites ++ [⟨db.favSeq + 1, uid, recipe_id⟩],
         favSeq := db.favSeq + 1 })

/-- Embeds `remove_favourite` (src/main.py:129-139): `DELETE FROM favourites
WHERE user_id=? AND recipe_id=?`; `changed` is `cursor.rowcount`, the number
of deleted rows, and the result is `bool(changed)`. -/
def remove_favourite (db : DB) (username : String) (recipe_id : Nat) :
    Bool × DB :=
  match get_user_id db username with
  | none => (false, db)
  | some uid =>
    if uid = 0 then (false, db)
    else
      let remaining :=
        db.favourites.filter fun f => ! favMatches uid recipe_id f
      let changed := db.favourites.length - remaining.length
      (changed != 0, { db with favourites := remaining })

/-- Embeds `get_user_favourites` (src/main.py:141-155): inner join
`FROM recepti r JOIN favourites f ON f.recipe_id = r.id WHERE f.user_id=?`,
one (id, naziv_dat) row per matching (recipe, favourite) pair. -/
def get_user_favourites (db : DB) (username : String) : List (Nat × String) :=
  match get_user_id db username with
  | none => []
  | some uid =>
    if uid = 0 then []
    else
      db.recepti.flatMap fun r =>
        (db.favourites.filter (favMatches uid r.id)).map
          fun _ => (r.id, r.naziv_dat)

/-- JSON body of `/api/register`: a success flag and a message. -/
structure RegResponse where
  success : Bool
  message : String
deriving DecidableEq, Repr

/-- Embeds the `register` endpoint (src/main.py:192-205).  `hash` stands for
the external `argon2.hash`.  The UNIQUE constraint on `users.username` makes
the INSERT raise `sqlite3.IntegrityError` exactly when a row with that
username already exists; the except branch turns that into a failure body and
commits nothing. -/
def register (hash : String → String) (db : DB) (username password : String) :
    RegResponse × DB :=
  let pw_hash := hash password
  if db.users.any fun u => u.username == username then
    ({ success := false, message := "Uporabniško ime že obstaja." }, db)
  else
    ({ success := true, message := "Registracija uspešna. Prijavi se." },
     { db with
       users := db.users ++ [⟨db.userSeq + 1, username, pw_hash⟩],
       userSeq := db.userSeq + 1 })

/-- Response of `/api/login`: HTTP status, success flag, optional error
message, and the username cookie set on success. -/
structure LoginResponse where
  status : Nat
  success : Bool
  message : Option String
  cookie : Option String
deriving DecidableEq, Repr

/-- Embeds the `login` endpoint (src/main.py:207-220).  `verify password h`
stands for the external `argon2.verify(password, h)`.  The single
`if user and argon2.verify(...)` means the unknown-username case and the
wrong-password case fall through to the same 401 response. -/
def login (verify : String → String → Bool) (db : DB)
    (username password : String) : LoginResponse :=
  match db.users.find? fun u => u.username == username with
  | some u =>
    if verify password u.password_hash then
      { status := 200, success := true, message := none, cookie := some username }
    else
      { status := 401, success := false,
        message := some "Napačno uporabniško ime ali geslo.", cookie := none }
  | none =>
    { status := 401, success := false,
      message := some "Napačno uporabniško ime ali geslo.", cookie := none }

/-- Outcome of `/api/share_recipe` once a username cookie is present:
the `{"success": true}` body, the structured `{"success": false, "error":
"Prejemnik ne obstaja."}` body, or an unhandled exception that FastAPI turns
into a generic 500 server error. -/
inductive ShareResponse where
  | ok
  | receiverNotFound
  | serverError
deriving DecidableEq, Repr

/-- Embeds `api_share_recipe` (src/main.py:263-278) from the point where the
cookie yielded a username.  The receiver check `if not receiver_id` is falsy
for `None` and for 0.  The sender id is never checked: when
`get_user_id` returns `None` for the cookie's username, the INSERT binds NULL
to the NOT NULL column `sender_id`, `sqlite3.IntegrityError` propagates out
of the handler, and no row is written. -/
def api_share_recipe (db : DB) (senderUsername receiver : String)
    (recipe_id : Nat) : ShareResponse × DB :=
  let sender_id := get_user_id db senderUsername
  match get_user_id db receiver with
  | none => (ShareResponse.receiverNotFound, db)
  | some rid =>
    if rid = 0 then (ShareResponse.receiverNotFound, db)
    else
      match sender_id with
      | none => (ShareResponse.serverError, db)
      | some sid =>
        (ShareResponse.ok,
         { db with
           shared := db.shared ++ [⟨db.shareSeq + 1, sid, rid, recipe_id⟩],
           shareSeq := db.shareSeq + 1 })

/-- Number of favourites rows for a given (user_id, recipe_id) pair. -/
def countPair (db : DB) (uid recipe_id : Nat) : Nat :=
  (db.favourites.filter (favMatches uid recipe_id)).length

/-- A one-recipe database whose single recipe has raw words "a50b" and empty
lemma column: neither column contains the string "50%". -/
def injDB : DB := ⟨[], [], [], [⟨1, "r", none, "a50b", ""⟩], 0, 0, 0⟩

/-- C1: the claim says a keyword containing SQL metacharacters such as a
percent sign is matched purely as a literal substring because the query is
parameterized.  The code instead string-interpolates the keyword into the
LIKE pattern (src/main.py:81), so in the keyword "50%" the percent sign acts
as a wildcard: the search returns the recipe whose columns "a50b" and ""
do not contain "50%" as a literal substring. -/
theorem C1_interpolated_percent_is_wildcard :
    search_recipes false injDB ["50%"] = [(1, "r", (none : Option String))] ∧
    isSubstr "50%" "a50b" = false ∧ isSubstr "50%" "" = false := by
  decide

/-- C6: searching with an empty keyword list returns the empty list, not all
recipes, whatever the database contents and store health. -/
theorem C6_empty_keywords_empty_result (fault : Bool) (db : DB) :
    search_recipes fault db [] = [] := by
  simp [search_recipes]

/-- C7: a store-level failure during search (the except branch around
cursor.execute) degrades to an empty result list instead of propagating. -/
theorem C7_store_failure_degrades_to_empty (db : DB) (keywords : List String) :
    search_recipes true db keywords = [] := by
  unfold search_recipes
  by_cases h : keywords.isEmpty <;> simp [h]

/-- C2: login with an unknown username and login with a wrong password
against an existing username return the identical 401 failure response, with
success = false rather than an error. -/
theorem C2_login_failures_indistinguishable (verify : String → String → Bool)
    (db : DB) (unknownU pw1 knownU pw2 : String) (u : User)
    (hU : (db.users.find? fun x => x.username == unknownU) = none)
    (hK : (db.users.find? fun x => x.username == knownU) = some u)
    (hW : verify pw2 u.password_hash = false) :
    login verify db unknownU pw1 = login verify db knownU pw2 ∧
    (login verify db unknownU pw1).status = 401 ∧
    (login verify db unknownU pw1).success = false := by
  simp [login, hU, hK, hW]

/-- A two-user database used to instantiate the endpoint theorems. -/
def twoUserDB : DB :=
  ⟨[⟨1, "alice", "h1"⟩, ⟨2, "bob", "h2"⟩], [], [], [⟨7, "torta", none, "b", "l"⟩], 2, 0, 0⟩

/-- Witness for C2 at a concrete database: the rejection of the unknown user
"carol" equals the rejection of "alice" under a verifier that rejects. -/
theorem C2_login_failures_indistinguishable_witness :
    login (fun _ _ => false) twoUserDB "carol" "x" =
      login (fun _ _ => false) twoUserDB "alice" "y" ∧
    (login (fun _ _ => false) twoUserDB "carol" "x").status = 401 ∧
    (login (fun _ _ => false) twoUserDB "carol" "x").success = false :=
  C2_login_failures_indistinguishable (fun _ _ => false) twoUserDB "carol" "x"
    "alice" "y" ⟨1, "alice", "h1"⟩ (by decide) (by decide) rfl

/-- The first user row whose username matches comes after any non-matching
prefix: lookup in an appended list skips a match-free first part. -/
theorem find?_append_of_none {α : Type} {p : α → Bool} {l₁ : List α}
    (l₂ : List α) (h : l₁.find? p = none) :
    (l₁ ++ l₂).find? p = l₂.find? p := by
  rw [List.find?_append, h, Option.none_or]

/-- C5: registering the same username twice succeeds the first time, fails
the second time with success = false, leaves the database untouched by the
failed call, and keeps the first call's password hash stored. -/
theorem C5_reregister_fails_hash_unchanged (hash : String → String) (db : DB)
    (u p1 p2 : String)
    (hfresh : (db.users.any fun x => x.username == u) = false) :
    (register hash db u p1).1.success = true ∧
    (register hash (register hash db u p1).2 u p2).1.success = false ∧
    (register hash (register hash db u p1).2 u p2).2 = (register hash db u p1).2 ∧
    (((register hash (register hash db u p1).2 u p2).2.users.find?
        fun x => x.username == u).map fun x => x.password_hash) = some (hash p1) := by
  have h1 : register hash db u p1 =
      ({ success := true, message := "Registracija uspešna. Prijavi se." },
       { db with users := db.users ++ [⟨db.userSeq + 1, u, hash p1⟩],
                 userSeq := db.userSeq + 1 }) := by
    simp [register, hfresh]
  have hany2 : ((db.users ++ [(⟨db.userSeq + 1, u, hash p1⟩ : User)]).any
      fun x => x.username == u) = true := by
    simp [List.any_append]
  have hfind : (db.users.find? fun x => x.username == u) = none := by
    rw [List.find?_eq_none]
    intro x hx
    simpa using (List.any_eq_false.mp hfresh) x hx
  rw [h1]
  refine ⟨rfl, ?_, ?_, ?_⟩
  · simp [register, hany2]
  · simp [register, hany2]
  · simp [register, hany2, find?_append_of_none _ hfind]

/-- Witness for C5 at a concrete database: registering "carol" twice keeps
her first hash and the second call fails. -/
theorem C5_reregister_fails_hash_unchanged_witness :
    (register (fun p => p ++ "#h") twoUserDB "carol" "pw1").1.success = true ∧
    (register (fun p => p ++ "#h")
        (register (fun p => p ++ "#h") twoUserDB "carol" "pw1").2 "carol" "pw2").1.success
      = false ∧
    (register (fun p => p ++ "#h")
        (register (fun p => p ++ "#h") twoUserDB "carol" "pw1").2 "carol" "pw2").2
      = (register (fun p => p ++ "#h") twoUserDB "carol" "pw1").2 ∧
    (((register (fun p => p ++ "#h")
        (register (fun p => p ++ "#h") twoUserDB "carol" "pw1").2 "carol" "pw2").2.users.find?
        fun x => x.username == "carol").map fun x => x.password_hash)
      = some ("pw1" ++ "#h") :=
  C5_reregister_fails_hash_unchanged (fun p => p ++ "#h") twoUserDB "carol" "pw1" "pw2"
    (by decide)

/-- The existence check of `add_to_favourites` returns true exactly when the
(user_id, recipe_id) pair has at least one favourites row. -/
theorem any_favMatches_iff_countPair_ne_zero (db : DB) (uid rid : Nat) :
    (db.favourites.any (favMatches uid rid)) = true ↔ countPair db uid rid ≠ 0 := by
  rw [List.any_eq_true, countPair]
  constructor
  · rintro ⟨x, hx, hpx⟩ hlen
    rw [List.length_eq_zero] at hlen
    exact absurd (hlen ▸ List.mem_filter.mpr ⟨hx, hpx⟩) (List.not_mem_nil x)
  · intro h
    rcases List.exists_mem_of_length_pos (Nat.pos_of_ne_zero h) with ⟨x, hx⟩
    rcases List.mem_filter.mp hx with ⟨hx1, hx2⟩
    exact ⟨x, hx1, hx2⟩

/-- When the user id is valid and no row for the pair exists,
`add_to_favourites` appends exactly one favourites row and returns true. -/
theorem add_to_favourites_insert (db : DB) (u : String) (rid uid : Nat)
    (hu : get_user_id db u = some uid) (h0 : ¬ uid = 0)
    (hany : (db.favourites.any (favMatches uid rid)) = false) :
    add_to_favourites db u rid =
      (true,
       { db with favourites := db.favourites ++ [⟨db.favSeq + 1, uid, rid⟩],
                 favSeq := db.favSeq + 1 }) := by
  simp [add_to_favourites, hu, h0, hany]

/-- The freshly inserted row satisfies the pair condition. -/
theorem favMatches_new_row (db : DB) (uid rid : Nat) :
    favMatches uid rid ⟨db.favSeq + 1, uid, rid⟩ = true := by
  simp [favMatches]

/-- C3: adding a favourite returns false for an unknown user; for a valid
user it returns false when the pair already has a row and true on insert,
and two successive calls with the same pair leave exactly one matching row,
the second call returning false. -/
theorem C3_add_favourite_idempotent (db : DB) (u : String) (rid : Nat) :
    (get_user_id db u = none → add_to_favourites db u rid = (false, db)) ∧
    (∀ uid, get_user_id db u = some uid → 1 ≤ uid →
      ((countPair db uid rid ≠ 0 → add_to_favourites db u rid = (false, db)) ∧
       (countPair db uid rid = 0 → (add_to_favourites db u rid).1 = true) ∧
       (countPair db uid rid ≤ 1 →
         ((add_to_favourites (add_to_favourites db u rid).2 u rid).1 = false ∧
          countPair (add_to_favourites (add_to_favourites db u rid).2 u rid).2 uid rid
            = 1)))) := by
  constructor
  · intro h
    simp [add_to_favourites, h]
  · intro uid hu hpos
    have h0 : ¬ uid = 0 := by omega
    by_cases hc : countPair db uid rid = 0
    · have hany : (db.favourites.any (favMatches uid rid)) = false := by
        rcases Bool.eq_false_or_eq_true (db.favourites.any (favMatches uid rid)) with h | h
        · exact absurd hc ((any_favMatches_iff_countPair_ne_zero db uid rid).mp h)
        · exact h
      have hadd := add_to_favourites_insert db u rid uid hu h0 hany
      refine ⟨fun hne => absurd hc hne, fun _ => by rw [hadd], fun _ => ?_⟩
      rw [hadd]
      have hu1 : get_user_id
          { db with favourites := db.favourites ++ [⟨db.favSeq + 1, uid, rid⟩],
                    favSeq := db.favSeq + 1 } u = some uid := hu
      have hany1 : ((db.favourites ++ [(⟨db.favSeq + 1, uid, rid⟩ : Fav)]).any
          (favMatches uid rid)) = true := by
        rw [List.any_append]
        simp [favMatches_new_row db uid rid]
      constructor
      · simp [add_to_favourites, hu1, h0, hany1]
      · simp only [add_to_favourites, hu1, h0, hany1, if_false, if_true]
        rw [countPair] at hc ⊢
        simp only [List.filter_append]
        rw [List.length_append, hc]
        simp [favMatches_new_row db uid rid]
    · have hany : (db.favourites.any (favMatches uid rid)) = true :=
        (any_favMatches_iff_countPair_ne_zero db uid rid).mpr hc
      have hstay : add_to_favourites db u rid = (false, db) := by
        simp [add_to_favourites, hu, h0, hany]
      refine ⟨fun _ => hstay, fun h => absurd h hc, fun hle => ?_⟩
      rw [hstay, hstay]
      refine ⟨rfl, ?_⟩
      show countPair db uid rid = 1
      omega

/-- A database with one user and one favourite row, used to instantiate the
favourites theorems. -/
def favDB : DB :=
  ⟨[⟨1, "alice", "h1"⟩, ⟨2, "bob", "h2"⟩], [⟨1, 1, 7⟩], [],
   [⟨7, "torta", none, "b", "l"⟩], 2, 1, 0⟩

/-- Witness for C3 at a concrete database: adding recipe 9 twice for "alice"
leaves exactly one row for the pair and the second call returns false. -/
theorem C3_add_favourite_idempotent_witness :
    (add_to_favourites (add_to_favourites favDB "alice" 9).2 "alice" 9).1 = false ∧
    countPair (add_to_favourites (add_to_favourites favDB "alice" 9).2 "alice" 9).2 1 9
      = 1 :=
  (((C3_add_favourite_idempotent favDB "alice" 9).2 1 (by decide)
      (by decide)).2.2) (by decide)

/-- C8: removing a favourite returns true exactly when a favourites row was
deleted; an unknown user yields false with the state unchanged, and for a
valid user the result is false when no row matches the pair and true when one
does. -/
theorem C8_remove_true_iff_row_deleted (db : DB) (u : String) (rid : Nat) :
    ((remove_favourite db u rid).1 = true ↔
      (remove_favourite db u rid).2.favourites.length < db.favourites.length) ∧
    (get_user_id db u = none → remove_favourite db u rid = (false, db)) ∧
    (∀ uid, get_user_id db u = some uid → 1 ≤ uid →
      (((db.favourites.any (favMatches uid rid)) = false →
          remove_favourite db u rid = (false, db)) ∧
       ((db.favourites.any (favMatches uid rid)) = true →
          (remove_favourite db u rid).1 = true))) := by
  refine ⟨?_, ?_, ?_⟩
  · cases hgu : get_user_id db u with
    | none => simp [remove_favourite, hgu]
    | some uid =>
      by_cases h0 : uid = 0
      · simp [remove_favourite, hgu, h0]
      · simp [remove_favourite, hgu, h0, bne_iff_ne, Nat.sub_ne_zero_iff_lt]
  · intro hgu
    simp [remove_favourite, hgu]
  · intro uid hgu hpos
    have h0 : ¬ uid = 0 := by omega
    constructor
    · intro hanyf
      have hfil : db.favourites.filter (fun f => ! favMatches uid rid f)
          = db.favourites := by
        refine List.filter_eq_self.mpr ?_
        intro a ha
        simp [List.any_eq_false.mp hanyf a ha]
      simp [remove_favourite, hgu, h0, hfil]
    · intro hanyt
      rcases List.any_eq_true.mp hanyt with ⟨x, hx, hpx⟩
      have hlt : (db.favourites.filter fun f => ! favMatches uid rid f).length
          < db.favourites.length := by
        rw [List.length_filter_lt_length_iff_exists]
        exact ⟨x, hx, by simp [hpx]⟩
      simp [remove_favourite, hgu, h0, bne_iff_ne, Nat.sub_ne_zero_iff_lt, hlt]

/-- Witness for C8 at a concrete database: removing the stored favourite
(alice, 7) returns true. -/
theorem C8_remove_true_iff_row_deleted_witness :
    (remove_favourite favDB "alice" 7).1 = true :=
  ((C8_remove_true_iff_row_deleted favDB "alice" 7).2.2 1 (by decide)
    (by decide)).2 (by decide)

/-- C4: sharing from an existing sender to a receiver username that does not
exist returns the structured receiver-not-found failure and writes no row;
to an existing receiver it unconditionally appends one shared_recipes row. -/
theorem C4_share_receiver_checked (db : DB) (sender receiver : String)
    (recipe_id sid : Nat) (hs : get_user_id db sender = some sid) :
    (get_user_id db receiver = none →
      api_share_recipe db sender receiver recipe_id
        = (ShareResponse.receiverNotFound, db)) ∧
    (∀ r, get_user_id db receiver = some r → 1 ≤ r →
      api_share_recipe db sender receiver recipe_id =
        (ShareResponse.ok,
         { db with shared := db.shared ++ [⟨db.shareSeq + 1, sid, r, recipe_id⟩],
                   shareSeq := db.shareSeq + 1 })) := by
  constructor
  · intro h
    simp [api_share_recipe, h]
  · intro r hr hpos
    have h0 : ¬ r = 0 := by omega
    simp [api_share_recipe, hs, hr, h0]

/-- Witness for C4 at a concrete database: sharing recipe 7 from "alice" to
"bob" appends the row (1, 1, 2, 7). -/
theorem C4_share_receiver_checked_witness :
    api_share_recipe twoUserDB "alice" "bob" 7 =
      (ShareResponse.ok, { twoUserDB with shared := [⟨1, 1, 2, 7⟩], shareSeq := 1 }) :=
  (C4_share_receiver_checked twoUserDB "alice" "bob" 7 1 (by decide)).2 2
    (by decide) (by decide)

/-- C10: when the identity cookie names a username absent from the user
store, sharing to an existing receiver hits the NOT NULL sender_id insert and
ends in an unhandled server error, not a structured failure body, and no row
is written. -/
theorem C10_unknown_sender_server_error (db : DB) (sender receiver : String)
    (recipe_id r : Nat) (hs : get_user_id db sender = none)
    (hr : get_user_id db receiver = some r) (hpos : 1 ≤ r) :
    api_share_recipe db sender receiver recipe_id
      = (ShareResponse.serverError, db) := by
  have h0 : ¬ r = 0 := by omega
  simp [api_share_recipe, hs, hr, h0]

/-- Witness for C10 at a concrete database: a cookie naming "ghost" makes the
share to "bob" end in the server error with the state unchanged. -/
theorem C10_unknown_sender_server_error_witness :
    api_share_recipe twoUserDB "ghost" "bob" 7
      = (ShareResponse.serverError, twoUserDB) :=
  C10_unknown_sender_server_error twoUserDB "ghost" "bob" 7 2 (by decide)
    (by decide) (by decide)

/-- C9: a favourite whose recipe id is absent from the recipe table is added
successfully and its row is stored, yet the favourites listing never shows a
row with that recipe id, because the inner join to recepti drops it. -/
theorem C9_dangling_favourite_invisible (db : DB) (u : String) (rid uid : Nat)
    (hu : get_user_id db u = some uid) (hpos : 1 ≤ uid)
    (hnofav : (db.favourites.any (favMatches uid rid)) = false)
    (hnorec : (db.recepti.all fun r => r.id != rid) = true) :
    (add_to_favourites db u rid).1 = true ∧
    ((add_to_favourites db u rid).2.favourites.any (favMatches uid rid)) = true ∧
    ∀ row ∈ get_user_favourites (add_to_favourites db u rid).2 u, row.1 ≠ rid := by
  have h0 : ¬ uid = 0 := by omega
  have hadd := add_to_favourites_insert db u rid uid hu h0 hnofav
  rw [hadd]
  have hu1 : get_user_id
      { db with favourites := db.favourites ++ [⟨db.favSeq + 1, uid, rid⟩],
                favSeq := db.favSeq + 1 } u = some uid := hu
  refine ⟨rfl, ?_, ?_⟩
  · rw [List.any_append]
    simp [favMatches_new_row db uid rid]
  · intro row hrow
    rw [get_user_favourites, hu1] at hrow
    simp only [h0, if_false, List.mem_flatMap, List.mem_map] at hrow
    rcases hrow with ⟨r, hr, _, _, hrow⟩
    have hne := List.all_eq_true.mp hnorec r hr
    rw [bne_iff_ne] at hne
    rw [← hrow]
    exact hne

/-- Witness for C9 at a concrete database: adding the nonexistent recipe 99
for "alice" succeeds, stores a row, and the listing shows no row with id
99. -/
theorem C9_dangling_favourite_invisible_witness :
    (add_to_favourites favDB "alice" 99).1 = true ∧
    ((add_to_favourites favDB "alice" 99).2.favourites.any (favMatches 1 99)) = true ∧
    ∀ row ∈ get_user_favourites (add_to_favourites favDB "alice" 99).2 "alice",
      row.1 ≠ 99 :=
  C9_dangling_favourite_invisible favDB "alice" 99 1 (by decide) (by decide)
    (by decide) (by decide)
